import Mathlib

/-!
Verification development for the `google-lens-ocr` command-line tool
(`src/main.rs`). The pipeline stages with non-trivial behaviour are
shallowly embedded here:

* `maybe_resize_image` — the pixel-ceiling image normalizer;
* `create_multipart_form` — the multipart/form-data body builder;
* `load_image_from_clipboard` — clipboard snapshot validation via
  `RgbaImage::from_vec`;
* the response-processing part of `run_ocr` — status check, regex payload
  extraction, fixed-path JSON navigation and fragment joining;
* `Command::new` — argument-mode selection.

Machine integers are modelled as `Nat` with an explicit `% 2^32` where u32
overflow matters. The resize-branch output dimensions are computed by the
source in IEEE-754 f64; f64 rounding is not modelled here, and accordingly
no theorem below asserts anything about those dimensions — the resize
branch appears only to make `maybe_resize_image` a complete definition,
and the only property settled about the normalizer is the exactly-integral
under-ceiling identity branch. External crates (`image`, `serde_json`,
`regex`) are modelled from their documented behaviour at exactly the call
sites the source uses.
-/

/-- JSON values as produced by `serde_json5::from_str::<serde_json::Value>`.
Numbers are modelled as `Int`: no claim depends on non-integral numbers. -/
inductive JValue where
  | null : JValue
  | bool : Bool → JValue
  | num : Int → JValue
  | str : String → JValue
  | arr : List JValue → JValue
  | obj : List (String × JValue) → JValue

/-- Models `serde_json::Value::as_array`. -/
def JValue.asArray : JValue → Option (List JValue)
  | .arr xs => some xs
  | _ => none

/-- Models `serde_json::Value::as_str`. -/
def JValue.asStr : JValue → Option String
  | .str s => some s
  | _ => none

/-- The numeric value of a digit string, `none` on any non-digit. -/
def digitsVal : List Char → Nat → Option Nat
  | [], acc => some acc
  | c :: rest, acc =>
    if c.isDigit then digitsVal rest (acc * 10 + (c.toNat - 48)) else none

/-- Models the index-token parsing of `serde_json::Value::pointer`
(RFC 6901): a token addresses an array element when it is a string of
digits with no leading `+` and no superfluous leading zero. -/
def parseIndex (tok : String) : Option Nat :=
  match tok.toList with
  | [] => none
  | [c] => if c.isDigit then some (c.toNat - 48) else none
  | '0' :: _ => none
  | cs => digitsVal cs 0

/-- Models one navigation step of `serde_json::Value::pointer`: object
lookup by key, or array lookup by parsed index. -/
def pointerToken (v : JValue) (tok : String) : Option JValue :=
  match v with
  | .obj fields => (fields.find? (fun p => p.1 = tok)).map (fun p => p.2)
  | .arr xs => (parseIndex tok).bind (fun i => xs[i]?)
  | _ => none

/-- Models `value.pointer("/data/3/4/0")` from `run_ocr`. -/
def pathData340 (v : JValue) : Option JValue :=
  (((pointerToken v "data").bind (pointerToken · "3")).bind
      (pointerToken · "4")).bind (pointerToken · "0")

/-- The error taxonomy of the pipeline, mapping the `anyhow` context
messages of the source: `upstreamStatus` is the `bail!("Google responded
with {}")` case, `payloadNotFound` is "Could not find object data",
`payloadParse` is a `serde_json5` failure, `payloadShape` is "Could not
find OCR data", `bufferSize` is "buffer was not big enough somehow". -/
inductive OcrError where
  | upstreamStatus : Nat → OcrError
  | payloadNotFound : OcrError
  | payloadParse : OcrError
  | payloadShape : OcrError
  | bufferSize : OcrError
deriving Repr, DecidableEq

/-- Rust `char::is_whitespace`: the Unicode White_Space code points. -/
def rustWS (c : Char) : Bool :=
  (0x09 ≤ c.toNat && c.toNat ≤ 0x0D) || c.toNat == 0x20 || c.toNat == 0x85 ||
    c.toNat == 0xA0 || c.toNat == 0x1680 ||
    (0x2000 ≤ c.toNat && c.toNat ≤ 0x200A) || c.toNat == 0x2028 ||
    c.toNat == 0x2029 || c.toNat == 0x202F || c.toNat == 0x205F ||
    c.toNat == 0x3000

/-- Models `buffer.truncate(buffer.trim_end().len())` from `run_ocr`:
Rust `str::trim_end` removes trailing White_Space characters, and the
truncation at its byte length realises exactly that trimmed prefix. -/
def rustTrimEnd (s : String) : String :=
  String.mk ((s.toList.reverse.dropWhile rustWS).reverse)

/-- One iteration of the fragment loop in `run_ocr`: a string entry is
appended followed by a newline, any other entry is skipped. -/
def fragmentStep (buf : String) (e : JValue) : String :=
  match e.asStr with
  | some s => buf ++ s ++ "\n"
  | none => buf

/-- The fragment loop of `run_ocr`, folding `fragmentStep` over the
fragment entries starting from the empty buffer. -/
def fragmentLoop (frags : List JValue) : String :=
  frags.foldl fragmentStep ""

/-- The tail of `run_ocr` acting on the parsed payload: navigate
`/data/3/4/0` and require an array (else "Could not find OCR data"); if its
first element is absent or not an array, return the empty string; otherwise
run the fragment loop and trim trailing whitespace. -/
def extractFromValue (v : JValue) : Except OcrError String :=
  match (pathData340 v).bind JValue.asArray with
  | none => .error .payloadShape
  | some data =>
    match data.head?.bind JValue.asArray with
    | none => .ok ""
    | some frags => .ok (rustTrimEnd (fragmentLoop frags))

/-- The literal head of the extraction pattern in `get_regex`. -/
def openLit : List Char := ">AF_initDataCallback(".toList

/-- The literal head of the capture group in `get_regex`. -/
def keyLit : List Char := "\x7bkey: \x27ds:1\x27".toList

/-- The literal tail of the extraction pattern in `get_regex`. -/
def closeLit : List Char := ");</script>".toList

/-- The lazy body of the pattern: the shortest run of non-newline
characters up to `closeLit` (regex `.*?` does not cross a line break with
the default flags of the `regex` crate). Returns the run, or `none` when
no terminator occurs on the current line. -/
def lazyCapture : List Char → Option (List Char)
  | [] => none
  | c :: rest =>
    if closeLit.isPrefixOf (c :: rest) then some []
    else if c = '\n' then none
    else (lazyCapture rest).map (fun t => c :: t)

/-- An attempted match of the pattern of `get_regex` anchored at the head
of `s`, returning the capture group. -/
def matchAt (s : List Char) : Option (List Char) :=
  if openLit.isPrefixOf s then
    if keyLit.isPrefixOf (s.drop openLit.length) then
      (lazyCapture ((s.drop openLit.length).drop keyLit.length)).map
        (fun t => keyLit ++ t)
    else none
  else none

/-- Models `get_regex().captures(text).and_then(|m| m.get(1))`: the
leftmost-first match of `>AF_initDataCallback\((\x7bkey: \x27ds:1\x27.*?)\);</script>`,
returning capture group 1. -/
def regexCapture : List Char → Option (List Char)
  | [] => none
  | c :: rest =>
    match matchAt (c :: rest) with
    | some cap => some cap
    | none => regexCapture rest

/-- The response-processing tail of `run_ocr`, from the received status
and body text onwards. The `serde_json5` parser is an external crate and
is passed as a parameter: `none` models a parse failure. -/
def runOcrFromResponse (parse : String → Option JValue) (status : Nat)
    (body : String) : Except OcrError String :=
  if status ≠ 200 then .error (.upstreamStatus status)
  else
    match regexCapture body.toList with
    | none => .error .payloadNotFound
    | some cap =>
      match parse (String.mk cap) with
      | none => .error .payloadParse
      | some v => extractFromValue v

/-- An `image::RgbaImage`: dimensions plus the raw byte buffer. The source
never inspects individual pixels, so bytes are plain naturals. -/
structure RgbaImage where
  width : Nat
  height : Nat
  data : List Nat

/-- The pixel ceiling of `maybe_resize_image`. -/
def pixelCeiling : Nat := 3000000

/-- Exact-arithmetic stand-in for the source's f64 resize width
`((3_000_000f64 * aspect_ratio).sqrt()) as u32` with
`aspect_ratio = width as f64 / height as f64`. The source value is subject
to IEEE-754 rounding and can differ from this exact value at some inputs
(e.g. 49 × 3,000,000 gives 6 in the program but 7 here), so this
definition is NOT a faithful model of the program's resize width; it
exists only so `maybe_resize_image` is a complete definition, and no
theorem in this file is stated about it. -/
def nwidthOf (w h : Nat) : Nat :=
  Nat.sqrt (pixelCeiling * w / h)

/-- Exact-arithmetic stand-in for the source's f64 resize height
`(nwidth as f64 / aspect_ratio) as u32`. Like `nwidthOf`, this is subject
to the same caveat: f64 rounding can make the program differ from this
exact value (e.g. 10384 × 8496 gives 1565 in the program but 1566 here);
no theorem in this file is stated about it. -/
def nheightOf (w h : Nat) : Nat :=
  nwidthOf w h * h / w

/-- Models `maybe_resize_image`. The u32 product `img.width() * img.height()`
is reduced `% 2^32` (release-build wrapping; a debug build would panic on
the same overflow, so either way the ideal unbounded comparison is only
faithful below `2^32`). `image::imageops::resize` is an external crate
function; its resampled byte buffer is the `resample` parameter. The
dimensions of the then-branch use the exact-arithmetic stand-ins
`nwidthOf`/`nheightOf` for the source's f64 computation and are therefore
not faithful to the program (see their doc comments); only the else
branch, which involves no floating point, is relied on by any theorem. -/
def maybe_resize_image (resample : Nat → Nat → RgbaImage → List Nat)
    (img : RgbaImage) : RgbaImage :=
  if img.width * img.height % 2 ^ 32 > pixelCeiling then
    { width := nwidthOf img.width img.height
      height := nheightOf img.width img.height
      data := resample (nwidthOf img.width img.height)
        (nheightOf img.width img.height) img }
  else img

/-- The fixed multipart boundary constant `BOUNDARY`. -/
def BOUNDARY : String := "ZPJQvnUMIqajI5LbS8cc5w"

/-- The bytes of an ASCII string literal (every literal passed to
`extend_from_slice` in the source is ASCII, where UTF-8 bytes and code
points coincide). -/
def strBytes (s : String) : List Nat :=
  s.toList.map Char.toNat

/-- Models `create_multipart_form`, one `extend_from_slice` per line; the
filename and image arguments are byte sequences. -/
def create_multipart_form (filename : List Nat) (img : List Nat) : List Nat :=
  strBytes "--" ++
  strBytes BOUNDARY ++
  strBytes "\r\n" ++
  strBytes "Content-Type: image/png\r\n" ++
  strBytes "Content-Disposition: form-data; name=\"encoded_image\"; " ++
  strBytes "filename=\"" ++
  filename ++
  strBytes "\"\r\n\r\n" ++
  img ++
  strBytes "\r\n--" ++
  strBytes BOUNDARY ++
  strBytes "--\r\n"

/-- Models `image::ImageBuffer::from_vec` (called as `RgbaImage::from_vec`):
per its documentation it returns `None` exactly when the buffer is not big
enough, i.e. it succeeds iff `width * height * 4 ≤ buffer length`, keeping
the whole buffer. (The checked u64/usize length computation cannot
overflow for a representable buffer, so no wrap is modelled here.) -/
def rgbaFromVec (w h : Nat) (bytes : List Nat) : Option RgbaImage :=
  if w * h * 4 ≤ bytes.length then some ⟨w, h, bytes⟩ else none

/-- Models `load_image_from_clipboard` past the snapshot fetch: the
snapshot's reported width, height and byte buffer are passed to
`RgbaImage::from_vec`, and a `None` becomes the "buffer was not big enough
somehow" error. -/
def load_image_from_clipboard (w h : Nat) (bytes : List Nat) :
    Except OcrError RgbaImage :=
  match rgbaFromVec w h bytes with
  | some img => .ok img
  | none => .error .bufferSize

/-- The `Command` enum of the source. -/
inductive Command where
  | normal : String → Command
  | clipboard : Option String → Command
deriving Repr, DecidableEq

/-- Models `Command::new` on the argument list after `argv[0]` is skipped:
an empty list is the "missing file to use OCR with" error; a first argument
equal to `"clipboard"` selects clipboard mode with the next argument (if
any) as path; any other first argument selects normal mode. -/
def commandNew (args : List String) : Except String Command :=
  match args with
  | [] => .error "missing file to use OCR with"
  | a :: rest =>
    if a = "clipboard" then .ok (.clipboard rest.head?)
    else .ok (.normal a)

/-- C4: an image whose pixel count is at most 3,000,000 is returned by
`maybe_resize_image` unchanged: same dimensions, same pixel buffer. -/
theorem c4_identity (resample : Nat → Nat → RgbaImage → List Nat)
    (img : RgbaImage) (h : img.width * img.height ≤ pixelCeiling) :
    maybe_resize_image resample img = img := by
  have hlt : img.width * img.height < 2 ^ 32 :=
    lt_of_le_of_lt h (by norm_num [pixelCeiling])
  unfold maybe_resize_image
  rw [if_neg]
  rw [Nat.mod_eq_of_lt hlt]
  exact Nat.not_lt.mpr h

/-- Witness for `c4_identity` at a concrete 2×2 image. -/
theorem c4_identity_witness :
    (2 * 2 ≤ pixelCeiling) ∧
      maybe_resize_image (fun _ _ _ => []) ⟨2, 2, List.replicate 16 7⟩ =
        ⟨2, 2, List.replicate 16 7⟩ :=
  ⟨by decide, c4_identity (fun _ _ _ => []) ⟨2, 2, List.replicate 16 7⟩ (by decide)⟩

/-- C9: a response status other than 200 makes the pipeline fail with the
status-carrying upstream error, and the result is independent of the body
and of the parser, i.e. no extraction or parsing is attempted. -/
theorem c9_status (parse : String → Option JValue) (status : Nat)
    (body : String) (h : status ≠ 200) :
    runOcrFromResponse parse status body = .error (.upstreamStatus status) ∧
      ∀ (parse2 : String → Option JValue) (body2 : String),
        runOcrFromResponse parse status body =
          runOcrFromResponse parse2 status body2 := by
  refine ⟨by simp [runOcrFromResponse, h], fun parse2 body2 => ?_⟩
  simp [runOcrFromResponse, h]

/-- Witness for `c9_status` at status 500. -/
theorem c9_status_witness :
    runOcrFromResponse (fun _ => none) 500 "irrelevant" =
      .error (.upstreamStatus 500) :=
  (c9_status (fun _ => none) 500 "irrelevant" (by decide)).1

/-- C7: when the extraction pattern has no match in the response text, the
pipeline fails with the payload-not-found error. -/
theorem c7_no_match (parse : String → Option JValue) (body : String)
    (h : regexCapture body.toList = none) :
    runOcrFromResponse parse 200 body = .error .payloadNotFound := by
  have h2 : regexCapture body.data = none := h
  simp [runOcrFromResponse, h2]

/-- Witness for `c7_no_match` on a body with no pattern occurrence. -/
theorem c7_no_match_witness :
    regexCapture "hello".toList = none ∧
      runOcrFromResponse (fun _ => none) 200 "hello" =
        .error .payloadNotFound :=
  ⟨rfl, c7_no_match (fun _ => none) "hello" rfl⟩

/-- C8: when the value at `/data/3/4/0` is an empty array, extraction
succeeds with the empty string. -/
theorem c8_empty_array (v : JValue)
    (h : pathData340 v = some (JValue.arr [])) :
    extractFromValue v = .ok "" := by
  simp [extractFromValue, h, JValue.asArray]

/-- Witness for `c8_empty_array` at a concrete payload. -/
theorem c8_empty_array_witness :
    pathData340 (JValue.obj [("data", JValue.arr [JValue.null, JValue.null,
        JValue.null, JValue.arr [JValue.null, JValue.null, JValue.null,
          JValue.null, JValue.arr [JValue.arr []]]])]) =
        some (JValue.arr []) ∧
      extractFromValue (JValue.obj [("data", JValue.arr [JValue.null,
        JValue.null, JValue.null, JValue.arr [JValue.null, JValue.null,
          JValue.null, JValue.null, JValue.arr [JValue.arr []]]])]) =
        .ok "" :=
  ⟨by rfl, c8_empty_array _ (by rfl)⟩

/-- C10: a first argument equal to "clipboard" always selects clipboard
mode with the optional next argument as path, and consequently normal mode
can never carry the path "clipboard" from the first argument. -/
theorem c10_clipboard_mode :
    (∀ rest : List String, commandNew ("clipboard" :: rest) =
        .ok (.clipboard rest.head?)) ∧
      ∀ (args : List String) (p : String),
        commandNew args = .ok (.normal p) → p ≠ "clipboard" := by
  refine ⟨fun rest => by simp [commandNew], fun args p h => ?_⟩
  cases args with
  | nil => simp [commandNew] at h
  | cons a rest =>
    by_cases ha : a = "clipboard"
    · simp [commandNew, ha] at h
    · simp [commandNew, ha] at h
      exact h ▸ ha

/-- Witness for `c10_clipboard_mode` at concrete argument lists. -/
theorem c10_clipboard_mode_witness :
    commandNew ["clipboard", "shot.png"] =
        .ok (.clipboard (some "shot.png")) ∧
      ("img.png" : String) ≠ "clipboard" :=
  ⟨c10_clipboard_mode.1 ["shot.png"],
    c10_clipboard_mode.2 ["img.png"] "img.png" rfl⟩

/-- A payload whose `/data/3/4/0` array has the non-array first element
`42`: the concrete input refuting claim C2. -/
def firstNotArrayPayload : JValue :=
  JValue.obj [("data", JValue.arr [JValue.null, JValue.null, JValue.null,
    JValue.arr [JValue.null, JValue.null, JValue.null, JValue.null,
      JValue.arr [JValue.arr [JValue.num 42]]]])]

/-- C2 counterexample: at `firstNotArrayPayload` the array at `/data/3/4/0`
has a first element that exists and is not an array, yet extraction
succeeds with the empty string instead of failing with the payload-shape
error. -/
theorem c2_counterexample :
    pathData340 firstNotArrayPayload = some (JValue.arr [JValue.num 42]) ∧
      (JValue.num 42).asArray = none ∧
      extractFromValue firstNotArrayPayload = .ok "" ∧
      extractFromValue firstNotArrayPayload ≠ .error .payloadShape := by
  refine ⟨by rfl, rfl, by rfl, ?_⟩
  intro hcontra
  have : Except.ok (ε := OcrError) "" = .error .payloadShape :=
    (by rfl : extractFromValue firstNotArrayPayload = .ok "") ▸ hcontra
  exact Except.noConfusion this

/-- C2 amended: when the array at `/data/3/4/0` has a first element that
is not itself an array, extraction succeeds with the empty string (the
same outcome as the empty-array case), not a payload-shape error. -/
theorem c2_first_not_array (v : JValue) (e : JValue) (rest : List JValue)
    (hpath : pathData340 v = some (JValue.arr (e :: rest)))
    (hne : e.asArray = none) :
    extractFromValue v = .ok "" := by
  unfold extractFromValue
  rw [hpath]
  cases e with
  | arr xs => simp [JValue.asArray] at hne
  | null => rfl
  | bool b => rfl
  | num n => rfl
  | str s => rfl
  | obj fields => rfl

/-- Witness for `c2_first_not_array` at the concrete payload. -/
theorem c2_first_not_array_witness :
    extractFromValue firstNotArrayPayload = .ok "" :=
  c2_first_not_array firstNotArrayPayload (JValue.num 42) [] (by rfl) rfl

/-- C3 counterexample: a 1×1 clipboard snapshot whose buffer has 8 bytes —
more than `1 * 1 * 4`, so the length does not match exactly — is accepted
and an image is constructed, instead of failing with the buffer-size
error. -/
theorem c3_counterexample :
    (List.replicate 8 0).length ≠ 1 * 1 * 4 ∧
      load_image_from_clipboard 1 1 (List.replicate 8 0) =
        .ok ⟨1, 1, List.replicate 8 0⟩ := by
  exact ⟨by decide, by rfl⟩

/-- C3 amended: clipboard image acquisition fails with the buffer-size
error exactly when the snapshot buffer holds fewer than
`width * height * 4` bytes; a buffer at least that large is accepted and
the image is constructed from it. -/
theorem c3_buffer_amended (w h : Nat) (bytes : List Nat) :
    (load_image_from_clipboard w h bytes = .error .bufferSize ↔
        bytes.length < w * h * 4) ∧
      (w * h * 4 ≤ bytes.length →
        load_image_from_clipboard w h bytes = .ok ⟨w, h, bytes⟩) := by
  unfold load_image_from_clipboard rgbaFromVec
  by_cases hle : w * h * 4 ≤ bytes.length
  · rw [if_pos hle]
    refine ⟨⟨fun hcontra => Except.noConfusion hcontra, fun hlt => ?_⟩,
      fun _ => rfl⟩
    omega
  · rw [if_neg hle]
    exact ⟨⟨fun _ => by omega, fun _ => rfl⟩, fun hcontra => by omega⟩

/-- Witness for `c3_buffer_amended` at a 2×1 snapshot with an exactly
matching 8-byte buffer. -/
theorem c3_buffer_amended_witness :
    load_image_from_clipboard 2 1 (List.replicate 8 0) =
      .ok ⟨2, 1, List.replicate 8 0⟩ :=
  (c3_buffer_amended 2 1 (List.replicate 8 0)).2 (by decide)

/-- String join distributes over cons. -/
theorem strJoin_cons (a : String) (l : List String) :
    String.join (a :: l) = a ++ String.join l := by
  apply String.ext
  simp [String.join_eq, String.data_append]

/-- The fragment fold with an arbitrary starting buffer prepends that
buffer to the newline-joined string fragments. -/
theorem fragmentLoop_foldl (l : List JValue) (acc : String) :
    l.foldl fragmentStep acc =
      acc ++ String.join ((l.filterMap JValue.asStr).map (fun s => s ++ "\n")) := by
  induction l generalizing acc with
  | nil => simp [String.join]
  | cons e rest ih =>
    cases he : e.asStr with
    | none =>
      simp only [List.foldl_cons, fragmentStep, he, List.filterMap_cons]
      exact ih acc
    | some s =>
      simp only [List.foldl_cons, fragmentStep, he, List.filterMap_cons,
        List.map_cons, strJoin_cons]
      rw [ih (acc ++ s ++ "\n")]
      simp [String.append_assoc]

/-- C6: the OCR text of a fragment array is obtained by keeping exactly the
plain-string entries in order, appending a line break after each, joining,
and trimming trailing whitespace; non-string entries are skipped, so the
fragment array `["hello", 42, "world"]` yields `"hello\nworld"`. -/
theorem c6_fragments (frags : List JValue) :
    rustTrimEnd (fragmentLoop frags) =
        rustTrimEnd (String.join ((frags.filterMap JValue.asStr).map
          (fun s => s ++ "\n"))) ∧
      rustTrimEnd (fragmentLoop [JValue.str "hello", JValue.num 42,
          JValue.str "world"]) = "hello\nworld" := by
  constructor
  · rw [fragmentLoop, fragmentLoop_foldl, String.empty_append]
  · rfl

/-- Byte serialization of ASCII strings distributes over append. -/
theorem strBytes_append (a b : String) :
    strBytes (a ++ b) = strBytes a ++ strBytes b := by
  simp [strBytes, String.toList, String.data_append]

/-- C5: the multipart builder is a total pure function producing exactly
the claimed byte layout: the fixed header (with the boundary and the
filename spliced in), the raw image bytes, and the closing boundary line;
its output starts with `--BOUNDARY\r\n`, ends with `--BOUNDARY--\r\n`, and
equal inputs give byte-identical output. -/
theorem c5_multipart (filename img filename2 img2 : List Nat)
    (hf : filename = filename2) (hi : img = img2) :
    create_multipart_form filename img =
        strBytes ("--" ++ BOUNDARY ++ "\r\n" ++ "Content-Type: image/png\r\n" ++
            "Content-Disposition: form-data; name=\"encoded_image\"; " ++
            "filename=\"") ++
          filename ++ strBytes "\"\r\n\r\n" ++ img ++
          strBytes ("\r\n--" ++ BOUNDARY ++ "--\r\n") ∧
      strBytes ("--" ++ BOUNDARY ++ "\r\n") <+:
        create_multipart_form filename img ∧
      strBytes ("--" ++ BOUNDARY ++ "--\r\n") <:+
        create_multipart_form filename img ∧
      create_multipart_form filename img =
        create_multipart_form filename2 img2 := by
  have hsplit : strBytes "\r\n--" = strBytes "\r\n" ++ strBytes "--" := rfl
  refine ⟨?_, ⟨?_, ?_⟩, ?_, hf ▸ hi ▸ rfl⟩
  · simp [create_multipart_form, strBytes_append, List.append_assoc]
  · exact strBytes "Content-Type: image/png\r\n" ++
      strBytes "Content-Disposition: form-data; name=\"encoded_image\"; " ++
      strBytes "filename=\"" ++ filename ++ strBytes "\"\r\n\r\n" ++ img ++
      strBytes "\r\n--" ++ strBytes BOUNDARY ++ strBytes "--\r\n"
  · simp [create_multipart_form, strBytes_append, List.append_assoc]
  · refine ⟨strBytes "--" ++ strBytes BOUNDARY ++ strBytes "\r\n" ++
      strBytes "Content-Type: image/png\r\n" ++
      strBytes "Content-Disposition: form-data; name=\"encoded_image\"; " ++
      strBytes "filename=\"" ++ filename ++ strBytes "\"\r\n\r\n" ++ img ++
      strBytes "\r\n", ?_⟩
    simp [create_multipart_form, strBytes_append, hsplit, List.append_assoc]

/-- Witness for `c5_multipart` at a concrete filename and image. -/
theorem c5_multipart_witness :
    create_multipart_form [49, 46, 112, 110, 103] [137, 80, 78, 71] =
        create_multipart_form [49, 46, 112, 110, 103] [137, 80, 78, 71] ∧
      strBytes ("--" ++ BOUNDARY ++ "\r\n") <+:
        create_multipart_form [49, 46, 112, 110, 103] [137, 80, 78, 71] :=
  ⟨(c5_multipart [49, 46, 112, 110, 103] [137, 80, 78, 71]
      [49, 46, 112, 110, 103] [137, 80, 78, 71] rfl rfl).2.2.2,
    (c5_multipart [49, 46, 112, 110, 103] [137, 80, 78, 71]
      [49, 46, 112, 110, 103] [137, 80, 78, 71] rfl rfl).2.1⟩

